import Mathlib

/-!
Verification of the toast widget lifecycle from
src/components/Toaster/Toast/Toast.tsx.

The TypeScript component is embedded shallowly:
- `ToastStatus` and `stepStatus` embed the status state machine of
  `useToastStatus` (the deferred phase-advance effect, the two
  animation-end handlers, and `handleClose`);
- `setTimer` / `clearTimer` / `simulate` embed the dismiss-timer logic of
  `useCloseOnTimeout`, with `pending` modelling the set of scheduled
  `setTimeout` callbacks that have not yet fired and `current` the
  `timerId.current` ref;
- `effectiveTimeout` embeds the expression
  `allowAutoHiding ? props.timeout || DEFAULT_TIMEOUT : undefined`
  in the `Toast` component body;
- `getStyles` and `titleBold` embed the rendering decisions of the same
  name / of the title class modifier;
- `onActionClick` embeds the click handler built by `renderActions`.
-/

namespace UIKit.Toast

/-- `const FADE_IN_LAST_ANIMATION_NAME = 'move-left'` (Toast.tsx line 14). -/
def FADE_IN_LAST_ANIMATION_NAME : String := "move-left"

/-- `const FADE_OUT_LAST_ANIMATION_NAME = 'remove-height'` (Toast.tsx line 15). -/
def FADE_OUT_LAST_ANIMATION_NAME : String := "remove-height"

/-- `const DEFAULT_TIMEOUT = 5000` (Toast.tsx line 17). -/
def DEFAULT_TIMEOUT : Nat := 5000

/-- `enum ToastStatus` (Toast.tsx lines 51-57). -/
inductive ToastStatus
  | creating
  | showingIndents
  | showingHeight
  | shown
  | hiding
deriving DecidableEq, Fintype

/-- The external triggers that can reach `useToastStatus`:
`deferredAdvance` is the `React.useEffect` on `status` running at the next
scheduling opportunity after a status change (lines 142-148); `animEnd name`
is an animation-completion signal delivered to the container
`onAnimationEnd` handler (lines 150-168); `close` is any hide request
routed through `handleClose` (lines 170-172): the close button, dismiss
timer expiry, or an action that removes after click. -/
inductive StatusEvent
  | deferredAdvance
  | animEnd (animationName : String)
  | close
deriving DecidableEq

/-- Result of delivering one event to `useToastStatus`: the new `status`
state and whether `onRemove` (that is, `props.removeCallback`) was
invoked during the step. -/
structure StatusStep where
  status : ToastStatus
  removeFired : Bool
deriving DecidableEq

/-- One step of the `useToastStatus` machine (Toast.tsx lines 139-175).
The deferred effect advances creating to showingIndents and
showingIndents to showingHeight; `onAnimationEnd` is
`onFadeInAnimationEnd` only while the status is showingHeight and
`onFadeOutAnimationEnd` only while the status is hiding, and is undefined
otherwise; `handleClose` sets the status to hiding unconditionally. -/
def stepStatus (s : ToastStatus) (e : StatusEvent) : StatusStep :=
  match e with
  | .deferredAdvance =>
    match s with
    | .creating => ⟨.showingIndents, false⟩
    | .showingIndents => ⟨.showingHeight, false⟩
    | _ => ⟨s, false⟩
  | .animEnd animationName =>
    match s with
    | .showingHeight =>
      if animationName = FADE_IN_LAST_ANIMATION_NAME then ⟨.shown, false⟩
      else ⟨.showingHeight, false⟩
    | .hiding =>
      if animationName = FADE_OUT_LAST_ANIMATION_NAME then ⟨.hiding, true⟩
      else ⟨.hiding, false⟩
    | _ => ⟨s, false⟩
  | .close => ⟨.hiding, false⟩

/-- Run a sequence of events from a given status, counting how many times
`removeCallback` is invoked. -/
def runStatusFrom (s : ToastStatus) (count : Nat) : List StatusEvent → ToastStatus × Nat
  | [] => (s, count)
  | e :: rest =>
    let r := stepStatus s e
    runStatusFrom r.status (count + (if r.removeFired then 1 else 0)) rest

/-- Run a sequence of events from the initial status `creating`
(the `React.useState` initial value, Toast.tsx line 140). -/
def runStatus (events : List StatusEvent) : ToastStatus × Nat :=
  runStatusFrom .creating 0 events

/-- Rank of a status along the forward lifecycle order. -/
def statusRank : ToastStatus → Nat
  | .creating => 0
  | .showingIndents => 1
  | .showingHeight => 2
  | .shown => 3
  | .hiding => 4

/-! ## Dismiss timer (`useCloseOnTimeout`, Toast.tsx lines 69-108)

The state tracks every scheduled `setTimeout` callback that has not yet
fired (`pending`, as pairs of a positive timer id and the absolute time at
which the callback is due) together with the `timerId.current` ref
(`current`) and the next id the environment will hand out (`nextId`).
`closes` records the times at which a timer fired and ran `onClose`.
Browser timer ids are positive, so ids start at 1 and the JS truthiness
test `if (timerId.current)` coincides with `current` being set. -/

/-- State of the timer environment around one `useCloseOnTimeout` hook. -/
structure TimerState where
  pending : List (Nat × Nat)
  current : Option Nat
  nextId : Nat
  closes : List Nat
deriving DecidableEq

/-- `setTimer` (Toast.tsx lines 75-83): if the timeout is JS-falsy
(undefined or 0) do nothing; otherwise schedule a fresh full-duration
callback and overwrite `timerId.current` with its id. The previously
scheduled callback, if any, is NOT cancelled here. -/
def setTimer (timeout : Option Nat) (now : Nat) (s : TimerState) : TimerState :=
  match timeout with
  | none => s
  | some t =>
    if t = 0 then s
    else
      { s with
        pending := s.pending ++ [(s.nextId, now + t)]
        current := some s.nextId
        nextId := s.nextId + 1 }

/-- `clearTimer` (Toast.tsx lines 85-90): if `timerId.current` is set,
cancel that scheduled callback and reset the ref. -/
def clearTimer (s : TimerState) : TimerState :=
  match s.current with
  | none => s
  | some id =>
    { s with
      pending := s.pending.filter (fun p => decide (p.1 ≠ id))
      current := none }

/-- Fire every pending timer due at or before time `t`: each fired timer
leaves `pending` and its `onClose` call is recorded at its scheduled
time. The `timerId.current` ref is not reset by the callback. -/
def fireDue (t : Nat) (s : TimerState) : TimerState :=
  { s with
    pending := s.pending.filter (fun p => decide (t < p.2))
    closes := s.closes ++ (s.pending.filter (fun p => decide (p.2 ≤ t))).map Prod.snd }

/-- Pointer events wired to the container (Toast.tsx lines 99-107):
`enter` is `onMouseOver` (runs `clearTimer`), `leave` is `onMouseLeave`
(runs `setTimer`). -/
inductive HoverEvent
  | enter
  | leave
deriving DecidableEq

/-- Deliver one timed pointer event, after first firing any timer that
came due before it. -/
def hoverStep (timeout : Option Nat) (s : TimerState) (ev : Nat × HoverEvent) : TimerState :=
  match ev.2 with
  | .enter => clearTimer (fireDue ev.1 s)
  | .leave => setTimer timeout ev.1 (fireDue ev.1 s)

/-- State right after mount at time 0: the mount effect
(Toast.tsx lines 92-97) runs `setTimer` on an empty environment. -/
def mountTimer (timeout : Option Nat) : TimerState :=
  setTimer timeout 0 ⟨[], none, 1, []⟩

/-- Run the timer environment: mount at time 0, deliver the
time-ordered pointer events (all at or before `horizon`), then fire
everything due by `horizon`. -/
def simulate (timeout : Option Nat) (events : List (Nat × HoverEvent))
    (horizon : Nat) : TimerState :=
  fireDue horizon (events.foldl (hoverStep timeout) (mountTimer timeout))

/-- The timeout handed to `useCloseOnTimeout` by the `Toast` component
(Toast.tsx line 232): `allowAutoHiding ? props.timeout || DEFAULT_TIMEOUT
: undefined`, with JS `||` replacing a falsy (absent or 0) timeout by the
default. -/
def effectiveTimeout (allowAutoHiding : Bool) (timeout : Option Nat) : Option Nat :=
  if allowAutoHiding then
    some (match timeout with
      | some t => if t = 0 then DEFAULT_TIMEOUT else t
      | none => DEFAULT_TIMEOUT)
  else
    none

/-- Guarded-hover discipline: every pointer-leave is immediately preceded
by a pointer-enter in the pointer-event list. The flag says whether the
previous pointer event was an enter. -/
def leavesGuarded : Bool → List (Nat × HoverEvent) → Bool
  | _, [] => true
  | _, (_, .enter) :: rest => leavesGuarded true rest
  | canLeave, (_, .leave) :: rest => canLeave && leavesGuarded false rest

/-- Invariant of the timer environment: at most one callback is pending,
and when one is, `timerId.current` points at it; right after a
pointer-enter (flag true) nothing is pending. -/
def TimerInv (canLeave : Bool) (s : TimerState) : Prop :=
  (s.pending = [] ∨ ∃ id ft, s.pending = [(id, ft)] ∧ s.current = some id) ∧
  (canLeave = true → s.pending = [])

/-! ## Rendering decisions (`getStyles`, title class, actions) -/

/-- `type ToastStyles` (Toast.tsx lines 59-62). -/
structure ToastStyles where
  height : Option Nat
  position : Option String
deriving DecidableEq

/-- JS truthiness of the measured `height` value (`undefined` and 0 are
falsy). -/
def jsTruthyNat : Option Nat → Bool
  | none => false
  | some n => decide (n ≠ 0)

/-- `getStyles` (Toast.tsx lines 235-247): an explicit height is set when
`height` is truthy and the status is neither showingIndents nor shown; a
relative position is set when the status is not creating. -/
def getStyles (status : ToastStatus) (height : Option Nat) : ToastStyles :=
  let base : ToastStyles := ⟨none, none⟩
  let withHeight :=
    if jsTruthyNat height && !(status == ToastStatus.showingIndents) &&
        !(status == ToastStatus.shown)
    then { base with height := height }
    else base
  if !(status == ToastStatus.creating)
  then { withHeight with position := some "relative" }
  else withHeight

/-- Observable operations performed by the click handler of a rendered
action. -/
inductive ActionOp
  | callback
  | closeRequest
deriving DecidableEq

/-- `onActionClick` built in `renderActions` (Toast.tsx lines 188-193):
first run the action `onClick` callback, then, when `removeAfterClick`
(defaulted to true by the destructuring on line 187) holds, request the
hide transition through `onClose`. -/
def onActionClick (removeAfterClick : Option Bool) : List ActionOp :=
  [ActionOp.callback] ++
    (if removeAfterClick.getD true then [ActionOp.closeRequest] else [])

/-- The status after activating an action from status `s`: each
closeRequest in the handler trace goes through `handleClose`, that is,
through a `close` step of the status machine. -/
def statusAfterActivate (removeAfterClick : Option Bool) (s : ToastStatus) : ToastStatus :=
  (onActionClick removeAfterClick).foldl
    (fun st op =>
      match op with
      | .callback => st
      | .closeRequest => (stepStatus st .close).status) s

/-- `interface ToastAction` (Toast.tsx lines 24-28); the `onClick`
callback is opaque and is represented by the `callback` operation in
`ActionOp` traces, so only the data fields appear here. -/
structure ToastAction where
  label : String
  removeAfterClick : Option Bool
deriving DecidableEq

/-- The title class modifier `bold: Boolean(content || actions)`
(Toast.tsx line 281). `contentTruthy` is the JS truthiness of the
`content` prop; `actions` is the optional actions array. A present but
empty array is truthy in JS, so it also emphasizes the title. -/
def titleBold (contentTruthy : Bool) (actions : Option (List ToastAction)) : Bool :=
  contentTruthy || actions.isSome

/-- Labels rendered by `renderActions` (Toast.tsx lines 182-201): nothing
when the actions prop is absent, one link per action otherwise. -/
def renderActionLabels (actions : Option (List ToastAction)) : List String :=
  match actions with
  | none => []
  | some as => as.map (fun a => a.label)

/-! ## Theorems -/

/-- Claim C1: every event either leaves the status unchanged, advances it
one step along the chain creating, showingIndents, showingHeight, shown,
or moves a non-hiding status into hiding; the status rank never decreases,
and no event moves the status out of hiding. -/
theorem status_moves_only_forward (s : ToastStatus) (e : StatusEvent) :
    ((stepStatus s e).status = s ∨
      (s = .creating ∧ (stepStatus s e).status = .showingIndents) ∨
      (s = .showingIndents ∧ (stepStatus s e).status = .showingHeight) ∨
      (s = .showingHeight ∧ (stepStatus s e).status = .shown) ∨
      ((s = .creating ∨ s = .showingIndents ∨ s = .showingHeight ∨ s = .shown) ∧
        (stepStatus s e).status = .hiding)) ∧
    statusRank s ≤ statusRank (stepStatus s e).status ∧
    (stepStatus .hiding e).status = .hiding := by
  cases s <;> cases e <;> simp only [stepStatus, statusRank] <;>
    try split_ifs <;> simp_all
  all_goals simp

/-- Claim C2 counterexample: the code does not guard `removeCallback`
against repeated invocation: after a close request, delivering the exit
animation signal twice while the status is hiding invokes
`removeCallback` twice, so it is not invoked at most once over every
event sequence. -/
theorem removeCallback_can_fire_twice :
    (runStatus [StatusEvent.close,
      StatusEvent.animEnd FADE_OUT_LAST_ANIMATION_NAME,
      StatusEvent.animEnd FADE_OUT_LAST_ANIMATION_NAME]).2 = 2 := by
  decide

/-- Claim C2 (amended): `removeCallback` is invoked on a step exactly when
the status is hiding and the event is an animation-completion signal named
`remove-height`; in particular each single exit-signal delivery while
hiding invokes it exactly once, and no other step invokes it. At-most-once
per instance relies on the owner discarding the instance after the first
invocation. -/
theorem removeCallback_fires_exactly_on_hiding_exit_signal (s : ToastStatus) (e : StatusEvent) :
    (stepStatus .hiding (.animEnd FADE_OUT_LAST_ANIMATION_NAME)).removeFired = true ∧
    ((s = .hiding ∧ e = .animEnd FADE_OUT_LAST_ANIMATION_NAME) ∨
      (stepStatus s e).removeFired = false) := by
  refine ⟨by decide, ?_⟩
  cases s <;> cases e <;> simp only [stepStatus] <;>
    try split_ifs <;> simp_all
  all_goals simp

/-- Claim C3: an animation-completion signal whose identifier does not
match the one expected in the current status leaves the status unchanged
and does not invoke `removeCallback`; in particular the exit identifier
delivered during showingHeight is a no-op, and every signal delivered
during creating, showingIndents or shown is a no-op. -/
theorem mismatched_signal_is_noop (s : ToastStatus) (animationName : String)
    (h1 : s = .showingHeight → animationName ≠ FADE_IN_LAST_ANIMATION_NAME)
    (h2 : s = .hiding → animationName ≠ FADE_OUT_LAST_ANIMATION_NAME) :
    stepStatus s (.animEnd animationName) = ⟨s, false⟩ ∧
    stepStatus .showingHeight (.animEnd FADE_OUT_LAST_ANIMATION_NAME) =
      ⟨.showingHeight, false⟩ ∧
    stepStatus .creating (.animEnd animationName) = ⟨.creating, false⟩ ∧
    stepStatus .showingIndents (.animEnd animationName) = ⟨.showingIndents, false⟩ ∧
    stepStatus .shown (.animEnd animationName) = ⟨.shown, false⟩ := by
  refine ⟨?_, by decide, by simp [stepStatus], by simp [stepStatus], by simp [stepStatus]⟩
  cases s <;> simp only [stepStatus]
  · simp [h1 rfl]
  · simp [h2 rfl]

/-- Witness for `mismatched_signal_is_noop` at a concrete mismatched
input: the enter identifier delivered while hiding. -/
theorem mismatched_signal_is_noop_witness :
    ((ToastStatus.hiding = .showingHeight →
        FADE_IN_LAST_ANIMATION_NAME ≠ FADE_IN_LAST_ANIMATION_NAME) ∧
      (ToastStatus.hiding = .hiding →
        FADE_IN_LAST_ANIMATION_NAME ≠ FADE_OUT_LAST_ANIMATION_NAME)) ∧
    stepStatus .hiding (.animEnd FADE_IN_LAST_ANIMATION_NAME) = ⟨.hiding, false⟩ :=
  ⟨⟨by decide, by decide⟩,
    (mismatched_signal_is_noop .hiding FADE_IN_LAST_ANIMATION_NAME
      (by decide) (by decide)).1⟩

/-- Claim C4: with timeout 1000, mount at 0, pointer-enter at 900 and
pointer-leave at 1100, no dismiss happens by time 1000 (the original
timer was cancelled outright), none by 2099, and the hide request fires
exactly at 2100 = 1100 + the full duration — the 100 units remaining at
hover start are discarded. The last conjunct contrasts with the no-hover
run, which dismisses at 1000. -/
theorem hover_restarts_full_duration :
    (simulate (effectiveTimeout true (some 1000)) [(900, .enter)] 1000).closes = [] ∧
    (simulate (effectiveTimeout true (some 1000))
      [(900, .enter), (1100, .leave)] 2099).closes = [] ∧
    (simulate (effectiveTimeout true (some 1000))
      [(900, .enter), (1100, .leave)] 2100).closes = [2100] ∧
    (simulate (effectiveTimeout true (some 1000)) [] 1000).closes = [1000] := by
  decide

/-- Claim C5 counterexample: two pointer-leave events in a row leave two
timers pending at once: `onMouseLeave` re-arms via `setTimer`, which
overwrites `timerId.current` without cancelling the previously scheduled
callback. -/
theorem double_leave_leaves_two_timers :
    (simulate (some 1000)
      [(10, .enter), (20, .leave), (30, .leave)] 40).pending.length = 2 := by
  decide

theorem fireDue_timerInv (t : Nat) (c : Bool) (s : TimerState)
    (h : TimerInv c s) : TimerInv c (fireDue t s) := by
  obtain ⟨h1, h2⟩ := h
  constructor
  · rcases h1 with h1 | ⟨id, ft, hp, hc⟩
    · left
      simp [fireDue, h1]
    · by_cases hd : t < ft
      · right
        exact ⟨id, ft, by simp [fireDue, hp, hd], hc⟩
      · left
        simp [fireDue, hp, hd]
  · intro hcl
    simp [fireDue, h2 hcl]

theorem clearTimer_empties (c : Bool) (s : TimerState)
    (h : TimerInv c s) : (clearTimer s).pending = [] := by
  obtain ⟨h1, _⟩ := h
  rcases h1 with h1 | ⟨id, ft, hp, hc⟩
  · unfold clearTimer
    cases hcur : s.current <;> simp [h1]
  · unfold clearTimer
    rw [hc]
    simp [hp]

theorem setTimer_timerInv (timeout : Option Nat) (now : Nat) (s : TimerState)
    (h : s.pending = []) : TimerInv false (setTimer timeout now s) := by
  refine ⟨?_, by simp⟩
  match timeout with
  | none => exact Or.inl h
  | some t =>
    by_cases ht : t = 0
    · exact Or.inl (by simp [setTimer, ht, h])
    · right
      exact ⟨s.nextId, now + t, by simp [setTimer, ht, h], by simp [setTimer, ht]⟩

theorem hoverFold_timerInv (timeout : Option Nat) :
    ∀ (events : List (Nat × HoverEvent)) (c : Bool) (s : TimerState),
      leavesGuarded c events = true → TimerInv c s →
      ∃ c2, TimerInv c2 (events.foldl (hoverStep timeout) s) := by
  intro events
  induction events with
  | nil => exact fun c s _ h => ⟨c, h⟩
  | cons ev rest ih =>
    intro c s hg hinv
    obtain ⟨t, e⟩ := ev
    cases e with
    | enter =>
      refine ih true (clearTimer (fireDue t s)) ?_ ?_
      · simpa [leavesGuarded] using hg
      · have hfd := fireDue_timerInv t c s hinv
        have hemp := clearTimer_empties c (fireDue t s) hfd
        exact ⟨Or.inl hemp, fun _ => hemp⟩
    | leave =>
      simp only [leavesGuarded, Bool.and_eq_true] at hg
      obtain ⟨hc, hrest⟩ := hg
      refine ih false (setTimer timeout t (fireDue t s)) hrest ?_
      have hfd := fireDue_timerInv t c s hinv
      exact setTimer_timerInv timeout t (fireDue t s) (hfd.2 hc)

/-- Claim C5 (amended): provided every pointer-leave immediately follows a
pointer-enter (as in a real hover stream, where `onMouseLeave` can only
fire after `onMouseOver`), at most one dismiss timer is pending at any
point of the run; a pointer-leave without an immediately preceding
pointer-enter instead arms a second timer without cancelling the pending
one, because `setTimer` never clears the previous callback. -/
theorem at_most_one_timer_when_leaves_guarded (timeout : Option Nat)
    (events : List (Nat × HoverEvent)) (horizon : Nat)
    (h : leavesGuarded false events = true) :
    (simulate timeout events horizon).pending.length ≤ 1 := by
  have hmount : TimerInv false (mountTimer timeout) :=
    setTimer_timerInv timeout 0 ⟨[], none, 1, []⟩ rfl
  obtain ⟨c2, hinv⟩ := hoverFold_timerInv timeout events false (mountTimer timeout) h hmount
  have hfin := fireDue_timerInv horizon c2 _ hinv
  rcases hfin.1 with hp | ⟨id, ft, hp, _⟩ <;> simp [simulate] at hp ⊢ <;> simp [hp]

/-- Witness for `at_most_one_timer_when_leaves_guarded` on the concrete
hover stream of the C4 scenario. -/
theorem at_most_one_timer_when_leaves_guarded_witness :
    leavesGuarded false [(900, .enter), (1100, .leave)] = true ∧
    (simulate (some 1000) [(900, .enter), (1100, .leave)] 2100).pending.length ≤ 1 :=
  ⟨by decide,
    at_most_one_timer_when_leaves_guarded (some 1000)
      [(900, .enter), (1100, .leave)] 2100 (by decide)⟩

theorem step_no_close_no_hiding (s : ToastStatus) (e : StatusEvent)
    (hs : s ≠ .hiding) (he : e ≠ .close) :
    (stepStatus s e).removeFired = false ∧ (stepStatus s e).status ≠ .hiding := by
  cases s <;> cases e <;> simp only [stepStatus] <;>
    try split_ifs <;> simp_all
  all_goals simp_all

theorem runStatusFrom_no_close (events : List StatusEvent) :
    ∀ (s : ToastStatus) (c : Nat), StatusEvent.close ∉ events → s ≠ .hiding →
      (runStatusFrom s c events).2 = c ∧ (runStatusFrom s c events).1 ≠ .hiding := by
  induction events with
  | nil => exact fun s c _ hs => ⟨rfl, hs⟩
  | cons e rest ih =>
    intro s c hmem hs
    have he : e ≠ .close := fun h => hmem (h ▸ List.mem_cons_self e rest)
    have hrest : StatusEvent.close ∉ rest := fun h => hmem (List.mem_cons_of_mem e h)
    have hstep := step_no_close_no_hiding s e hs he
    have hrec := ih (stepStatus s e).status c hrest hstep.2
    simpa [runStatusFrom, hstep.1] using hrec

theorem hoverFold_none_stays_empty (events : List (Nat × HoverEvent)) :
    ∀ s : TimerState, s.pending = [] → s.closes = [] →
      (events.foldl (hoverStep none) s).pending = [] ∧
      (events.foldl (hoverStep none) s).closes = [] := by
  induction events with
  | nil => exact fun s h1 h2 => ⟨h1, h2⟩
  | cons ev rest ih =>
    intro s h1 h2
    obtain ⟨t, e⟩ := ev
    have hf : (fireDue t s).pending = [] ∧ (fireDue t s).closes = [] := by
      simp [fireDue, h1, h2]
    cases e with
    | enter =>
      refine ih (clearTimer (fireDue t s)) ?_ ?_
      · unfold clearTimer
        cases hc : (fireDue t s).current <;> simp [hf.1]
      · unfold clearTimer
        cases hc : (fireDue t s).current <;> simp [hf.2]
    | leave =>
      simpa [hoverStep, setTimer] using ih (fireDue t s) hf.1 hf.2

/-- Claim C6 counterexample: with allowAutoHiding true and a configured
timeout of 0, the mount effect arms the timer with the default duration
5000, not with the configured value 0, because of the JS-falsy check in
`props.timeout || DEFAULT_TIMEOUT`. -/
theorem zero_timeout_armed_with_default_not_zero :
    (mountTimer (effectiveTimeout true (some 0))).pending = [(1, 5000)] ∧
    ¬ (1, 0) ∈ (mountTimer (effectiveTimeout true (some 0))).pending := by
  decide

/-- Claim C6 (amended): on mount a dismiss timer is armed if and only if
allowAutoHiding is true, with duration equal to the configured timeout
when that timeout is nonzero and the default 5000 when the timeout is
omitted or 0; with allowAutoHiding false no timer is ever armed, no
timer-driven close ever happens, and `removeCallback` never fires in any
event sequence that contains no close request (explicit close, or
action-triggered dismissal). -/
theorem autohide_arming_and_no_removal_without_close (tv : Nat) (topt : Option Nat)
    (events : List (Nat × HoverEvent)) (horizon : Nat) (sevents : List StatusEvent)
    (htv : tv ≠ 0) (hnc : StatusEvent.close ∉ sevents) :
    (mountTimer (effectiveTimeout true (some tv))).pending = [(1, tv)] ∧
    (mountTimer (effectiveTimeout true none)).pending = [(1, DEFAULT_TIMEOUT)] ∧
    (mountTimer (effectiveTimeout false topt)).pending = [] ∧
    (simulate (effectiveTimeout false topt) events horizon).closes = [] ∧
    (runStatus sevents).2 = 0 := by
  refine ⟨?_, by decide, by simp [effectiveTimeout, mountTimer, setTimer], ?_, ?_⟩
  · simp [effectiveTimeout, mountTimer, setTimer, htv]
  · have heff : effectiveTimeout false topt = none := by simp [effectiveTimeout]
    rw [heff]
    have hm : (mountTimer none).pending = [] ∧ (mountTimer none).closes = [] := by
      constructor <;> rfl
    have hfold := hoverFold_none_stays_empty events (mountTimer none) hm.1 hm.2
    simp [simulate, fireDue, hfold.1, hfold.2]
  · exact (runStatusFrom_no_close sevents .creating 0 hnc (by decide)).1

/-- Witness for `autohide_arming_and_no_removal_without_close` at a
concrete nonzero timeout and a concrete close-free event sequence. -/
theorem autohide_arming_and_no_removal_without_close_witness :
    (1000 ≠ 0 ∧
      StatusEvent.close ∉
        [StatusEvent.deferredAdvance, StatusEvent.deferredAdvance,
          StatusEvent.animEnd FADE_IN_LAST_ANIMATION_NAME]) ∧
    ((mountTimer (effectiveTimeout true (some 1000))).pending = [(1, 1000)] ∧
      (mountTimer (effectiveTimeout true none)).pending = [(1, DEFAULT_TIMEOUT)] ∧
      (mountTimer (effectiveTimeout false (some 1000))).pending = [] ∧
      (simulate (effectiveTimeout false (some 1000)) [(900, .enter)] 9000).closes = [] ∧
      (runStatus [StatusEvent.deferredAdvance, StatusEvent.deferredAdvance,
        StatusEvent.animEnd FADE_IN_LAST_ANIMATION_NAME]).2 = 0) :=
  ⟨⟨by decide, by decide⟩,
    autohide_arming_and_no_removal_without_close 1000 (some 1000)
      [(900, .enter)] 9000
      [StatusEvent.deferredAdvance, StatusEvent.deferredAdvance,
        StatusEvent.animEnd FADE_IN_LAST_ANIMATION_NAME]
      (by decide) (by decide)⟩

/-- Claim C10: a configured timeout of 0 is JS-falsy, so it behaves
exactly like omitting the timeout: the dismiss timer is armed with the
default duration 5000, no dismissal happens before 5000, and the close
fires at 5000, not immediately. -/
theorem zero_timeout_equals_default :
    effectiveTimeout true (some 0) = effectiveTimeout true none ∧
    (mountTimer (effectiveTimeout true (some 0))).pending = [(1, DEFAULT_TIMEOUT)] ∧
    (simulate (effectiveTimeout true (some 0)) [] 0).closes = [] ∧
    (simulate (effectiveTimeout true (some 0)) [] 4999).closes = [] ∧
    (simulate (effectiveTimeout true (some 0)) [] 5000).closes = [5000] := by
  decide

/-- Claim C7 counterexample: for the status creating and a measured
height of 100, `getStyles` applies the explicit pixel height even though
creating is neither showingHeight nor hiding, contradicting the claimed
phase table (the guard only excludes showingIndents and shown). -/
theorem height_style_applied_in_creating :
    (getStyles .creating (some 100)).height = some 100 ∧
    ToastStatus.creating ≠ .showingHeight ∧
    ToastStatus.creating ≠ .hiding := by
  decide

/-- Claim C7 (amended): given a measured nonzero height, the explicit
pixel height is applied exactly when the status is creating,
showingHeight or hiding — the code excludes only showingIndents and
shown, so creating is included whenever a height is present (in practice
no height has been measured yet while the status is creating, and an
absent or zero measured height is never applied); a non-default position
is applied exactly when the status is not creating. -/
theorem styles_phase_table (status : ToastStatus) (h : Nat) (hh : h ≠ 0) :
    ((getStyles status (some h)).height.isSome = true ↔
      (status = .creating ∨ status = .showingHeight ∨ status = .hiding)) ∧
    ((getStyles status (some h)).position.isSome = true ↔
      (status = .showingIndents ∨ status = .showingHeight ∨
        status = .shown ∨ status = .hiding)) ∧
    (getStyles .showingIndents (some h)).height = none ∧
    (getStyles .shown (some h)).height = none ∧
    (getStyles status none).height = none ∧
    (getStyles status (some 0)).height = none := by
  cases status <;> simp [getStyles, jsTruthyNat, hh]

/-- Witness for `styles_phase_table` at the hiding status with measured
height 100. -/
theorem styles_phase_table_witness :
    (100 ≠ 0) ∧
    (((getStyles .hiding (some 100)).height.isSome = true ↔
        (ToastStatus.hiding = .creating ∨ ToastStatus.hiding = .showingHeight ∨
          ToastStatus.hiding = .hiding)) ∧
      ((getStyles .hiding (some 100)).position.isSome = true ↔
        (ToastStatus.hiding = .showingIndents ∨ ToastStatus.hiding = .showingHeight ∨
          ToastStatus.hiding = .shown ∨ ToastStatus.hiding = .hiding)) ∧
      (getStyles .showingIndents (some 100)).height = none ∧
      (getStyles .shown (some 100)).height = none ∧
      (getStyles .hiding none).height = none ∧
      (getStyles .hiding (some 0)).height = none) :=
  ⟨by decide, styles_phase_table .hiding 100 (by decide)⟩

/-- Claim C8: activating an action performs the callback first; unless
removeAfterClick is explicitly false the handler then requests the hide
transition and the status becomes hiding; with removeAfterClick false
only the callback runs and the status is unchanged. -/
theorem action_activation_order (removeAfterClick : Option Bool) (s : ToastStatus) :
    (onActionClick removeAfterClick).head? = some .callback ∧
    ((removeAfterClick = some false ∧
        onActionClick removeAfterClick = [.callback] ∧
        statusAfterActivate removeAfterClick s = s) ∨
      ((removeAfterClick = none ∨ removeAfterClick = some true) ∧
        onActionClick removeAfterClick = [.callback, .closeRequest] ∧
        statusAfterActivate removeAfterClick s = .hiding)) := by
  rcases removeAfterClick with _ | b
  · exact ⟨rfl, Or.inr ⟨Or.inl rfl, rfl, by cases s <;> rfl⟩⟩
  · cases b
    · exact ⟨rfl, Or.inl ⟨rfl, rfl, rfl⟩⟩
    · exact ⟨rfl, Or.inr ⟨Or.inr rfl, rfl, by cases s <;> rfl⟩⟩

/-- Claim C9 counterexample: with no content and a present but empty
actions array the title is emphasized (`Boolean([])` is true in JS), even
though no action link is rendered, so the title is not emphasized-iff-
content-or-actions-non-empty. -/
theorem empty_actions_title_bold :
    titleBold false (some []) = true ∧ renderActionLabels (some []) = [] := by
  decide

/-- Claim C9 (amended): the title is emphasized if and only if the
content is truthy or the actions array is provided at all (even empty);
with content absent and the actions prop omitted the title is not
emphasized. -/
theorem title_bold_iff_content_or_actions_present (contentTruthy : Bool)
    (actions : Option (List ToastAction)) :
    (titleBold contentTruthy actions = true ↔
      (contentTruthy = true ∨ actions.isSome = true)) ∧
    titleBold false none = false := by
  cases contentTruthy <;> cases actions <;> simp [titleBold]

end UIKit.Toast
